import Mathlib

/-!
Shallow embedding of the Torivahti watcher (src/Watcher.py, src/pub_date_parser.py,
src/main.py): a classifieds-listing watcher that scrapes a search page, extracts
listing records, filters them, deduplicates against a DynamoDB-persisted seen set
and reports the accepted listings.

Python `datetime` values are modelled at wall-clock second granularity
(`Date` × hour/minute/second); Python strings as Lean `String` processed as
`List Char`; fallible Python code (uncaught exceptions) as `Except`;
the DynamoDB table as an association list from string keys to items.
-/

deriving instance DecidableEq for Except

/-- Calendar date (proleptic Gregorian), as Python `datetime.date`. -/
structure Date where
  year : Nat
  month : Nat
  day : Nat
deriving DecidableEq, Repr

/-- Wall-clock timestamp at second granularity, as the relevant fields of a
Python `datetime.datetime` (microseconds and tzinfo are not modelled: every
computation in the source stays within one fixed timezone). -/
structure DateTime where
  date : Date
  hour : Nat
  minute : Nat
  second : Nat
deriving DecidableEq, Repr

def isLeap (y : Nat) : Bool :=
  (y % 4 == 0 && y % 100 != 0) || y % 400 == 0

def daysInMonth (y m : Nat) : Nat :=
  if m = 2 then (if isLeap y then 29 else 28)
  else if m = 4 ∨ m = 6 ∨ m = 9 ∨ m = 11 then 30
  else 31

/-- The previous calendar day, as Python `datetime - timedelta(days=1)` acts on
the wall-clock date. -/
def predDate (d : Date) : Date :=
  if 1 < d.day then { d with day := d.day - 1 }
  else if 1 < d.month then
    { year := d.year, month := d.month - 1, day := daysInMonth d.year (d.month - 1) }
  else { year := d.year - 1, month := 12, day := 31 }

/-- `datetime - timedelta(days=1)`: one calendar day earlier, same time of day. -/
def subDay (t : DateTime) : DateTime :=
  { t with date := predDate t.date }

/-- Leap years strictly below `y` (year 0 counts as leap), for the linear day count. -/
def leapsBelow (y : Nat) : Nat :=
  (y + 3) / 4 - (y + 99) / 100 + (y + 399) / 400

def daysBeforeMonth (y : Nat) : Nat → Nat
  | 0 => 0
  | 1 => 0
  | m + 1 => daysBeforeMonth y m + daysInMonth y m

/-- Linear day number of a date (day 0 = 0000-01-01), used only to state
order-of-time facts about concrete timestamps. -/
def dayNum (d : Date) : Nat :=
  365 * d.year + leapsBelow d.year + daysBeforeMonth d.year d.month + (d.day - 1)

/-- Seconds on the linear wall-clock timeline. -/
def toSec (t : DateTime) : Nat :=
  86400 * dayNum t.date + 3600 * t.hour + 60 * t.minute + t.second

/-! ## Character/string helpers mirroring the Python string operations -/

def isSpaceCh (c : Char) : Bool :=
  c == ' ' || c == '\t' || c == '\n' || c == '\r'

def isDigitCh (c : Char) : Bool :=
  '0' ≤ c && c ≤ '9'

def digitVal (c : Char) : Nat := c.toNat - '0'.toNat

/-- Python `str.lower()`, restricted to the alphabet the watcher meets
(ASCII letters plus the Finnish Ä/Ö/Å). -/
def pyLower (c : Char) : Char :=
  if c == 'Ä' then 'ä'
  else if c == 'Ö' then 'ö'
  else if c == 'Å' then 'å'
  else if 'A' ≤ c && c ≤ 'Z' then Char.ofNat (c.toNat + 32)
  else c

/-- Python `str.strip()`. -/
def pyStrip (s : List Char) : List Char :=
  ((s.dropWhile isSpaceCh).reverse.dropWhile isSpaceCh).reverse

def isPrefixChars : List Char → List Char → Bool
  | [], _ => true
  | _ :: _, [] => false
  | a :: as, b :: bs => a == b && isPrefixChars as bs

/-- Python `re.search(tok, s) != None` for a literal token: contiguous
substring containment. -/
def containsTok (needle : List Char) : List Char → Bool
  | [] => isPrefixChars needle []
  | c :: rest => isPrefixChars needle (c :: rest) || containsTok needle rest

/-- Maximal digit runs of a string (`cur` accumulates the current run reversed). -/
def digitRuns (cur : List Char) : List Char → List (List Char)
  | [] => if cur.isEmpty then [] else [cur.reverse]
  | c :: rest =>
    if isDigitCh c then digitRuns (c :: cur) rest
    else if cur.isEmpty then digitRuns [] rest
    else cur.reverse :: digitRuns [] rest

/-- Greedy split of one digit run into the values `re.findall('\\d·1,2·')`
produces from it: pieces of two digits, a final odd digit alone. -/
def chunk2 : List Char → List Nat
  | [] => []
  | [a] => [digitVal a]
  | a :: b :: rest => (10 * digitVal a + digitVal b) :: chunk2 rest

def natOfDigits (l : List Char) : Nat :=
  l.foldl (fun a c => 10 * a + digitVal c) 0

/-- `list(map(int, re.findall('\\d·1,2·', s)))`: all 1-or-2-digit groups, in order. -/
def findGroups (s : List Char) : List Nat :=
  ((digitRuns [] s).map chunk2).flatten

/-- Python `l[-2:]`. -/
def lastTwo (l : List Nat) : List Nat :=
  l.drop (l.length - 2)

/-- `re.search("\\d·1,·", s)` followed by `int(...)`: the first maximal digit
run as a number, `none` when the string holds no digit (so subscripting the
match raises in the source). -/
def firstDigitRun (s : List Char) : Option Nat :=
  match s.dropWhile (fun c => !isDigitCh c) with
  | [] => none
  | c :: rest => some (natOfDigits ((c :: rest).takeWhile isDigitCh))

/-! ## pub_date_parser.get_timestamp -/

/-- `time_str.strip().lower()`. -/
def process (s : String) : List Char :=
  pyStrip (s.toList.map pyLower)

def TOK_TODAY : List Char := "tänään".toList

def TOK_YESTERDAY : List Char := "eilen".toList

/-- `re.search("tänään", time_str) != None` on the processed string. -/
def hasToday (s : String) : Bool :=
  containsTok TOK_TODAY (process s)

/-- `re.search("eilen", time_str) != None` on the processed string. -/
def hasYesterday (s : String) : Bool :=
  containsTok TOK_YESTERDAY (process s)

/-- The `ts = list(map(int, re.findall(...)))[-2:]` step of `get_timestamp`. -/
def lastTwoGroups (s : String) : List Nat :=
  lastTwo (findGroups (process s))

/-- Total number of numeric groups `re.findall('\\d·1,2·')` finds in the input. -/
def numGroups (s : String) : Nat :=
  (findGroups (process s)).length

/-- The day-resolution step of `get_timestamp`: `tänään` keeps the date
(`pub_time.replace(day=now.day)` — the date was never changed, so replacing
the day with today's day is the identity), `eilen` subtracts one day,
anything else returns `None`. -/
def dayStep (time_str : String) (t now : DateTime) : Option DateTime :=
  if hasToday time_str then some { t with date := { t.date with day := now.date.day } }
  else if hasYesterday time_str then some (subDay t)
  else none

/-- `pub_date_parser.get_timestamp(time_str)` with the ambient
`datetime.now(tz)` made an explicit argument `now`. When exactly two numeric
groups are found they become hour and minute with seconds pinned to 59;
`datetime.replace` raises `ValueError` on hour > 23 or minute > 59, which the
source catches and turns into `None`. With fewer than two groups the
`if len(ts) == 2` guard is skipped and `pub_time` stays at `now`. -/
def get_timestamp (time_str : String) (now : DateTime) : Option DateTime :=
  match lastTwoGroups time_str with
  | [hh, mm] =>
    if hh ≤ 23 ∧ mm ≤ 59 then
      dayStep time_str { now with hour := hh, minute := mm, second := 59 } now
    else none
  | _ => dayStep time_str now now

/-! ## The DynamoDB-backed seen set (Watcher.is_already_seen / insert_prodcut_dynamo) -/

/-- One DynamoDB item as the source uses it: an optional `products` attribute
holding a number set. The wire encoding stores the numbers as strings and the
membership test compares `str(product_id)` against them; since `toString` on
naturals is injective, the set is modelled directly as a list of naturals whose
observable is membership. -/
structure StoreItem where
  products : Option (List Nat)
deriving DecidableEq, Repr

/-- The DynamoDB table: an association list from `run_id` keys (as the strings
sent on the wire) to items. -/
structure Dynamo where
  items : List (String × StoreItem)
deriving DecidableEq, Repr

def Dynamo.getItem (db : Dynamo) (key : String) : Option StoreItem :=
  (db.items.find? (fun p => p.1 == key)).map Prod.snd

def Dynamo.putItem (db : Dynamo) (key : String) (item : StoreItem) : Dynamo :=
  ⟨(key, item) :: db.items.filter (fun p => p.1 != key)⟩

def DYNAMO_TABLE_NAME : String := "lautisvahti"

def DYNAMO_OBJ_PRIMARY_KEY : Nat := 1234

/-- `Watcher.is_already_seen(product_id)`: reads the item at the fixed key
`str(DYNAMO_OBJ_PRIMARY_KEY)`. When `get_item` returns no `Item`, the source
does `item.get('products')` on `None`, raising `AttributeError`, which the
enclosing `except` re-raises. When the item exists but has no `products`
attribute the chained `.get(..., default)` calls make the membership test run
against an empty collection. -/
def is_already_seen (db : Dynamo) (product_id : Nat) : Except String Bool :=
  match db.getItem (toString DYNAMO_OBJ_PRIMARY_KEY) with
  | none => Except.error "AttributeError"
  | some item =>
    match item.products with
    | none => Except.ok false
    | some ns => Except.ok (decide (product_id ∈ ns))

/-- `Watcher.insert_prodcut_dynamo(product_id)`: reads the item at key
`str(DYNAMO_OBJ_PRIMARY_KEY)` (raising as above when absent), appends the new
id to the stored list, deduplicates via `set(...)`, and writes the result with
`update_item` — whose `Key` is `run_id: DYNAMO_TABLE_NAME`, i.e. the literal
table name, not the primary key the read used. The Python `set` is modelled as
a deduplicated list; membership is its observable. -/
def insert_prodcut_dynamo (db : Dynamo) (product_id : Nat) : Except String Dynamo :=
  match db.getItem (toString DYNAMO_OBJ_PRIMARY_KEY) with
  | none => Except.error "AttributeError"
  | some item =>
    let prods := item.products.getD [] ++ [product_id]
    let set_ := prods.dedup
    Except.ok (db.putItem DYNAMO_TABLE_NAME { products := some set_ })

/-! ## Watcher.run -/

/-- Per-run configuration fields of the `Watcher` object that `run` and its
helpers read. -/
structure Config where
  name : String
  keywords : List String
  timespan_sec : Nat
  server_time_offset_secs : Nat
  price_limit_min : Int
  price_limit_max : Int
deriving DecidableEq, Repr

/-- A Python value passed to `is_within_pricelimit`: `None`, an `int`, or any
value whose comparison with the configured integer limits raises `TypeError`. -/
inductive PyPrice where
  | pynone
  | pyint (n : Int)
  | incomparable
deriving DecidableEq, Repr

/-- `Watcher.is_within_pricelimit(price)`: `None` is always accepted; an int is
accepted iff it lies within the inclusive limits; a comparison that raises is
caught and yields `False`. -/
def is_within_pricelimit (cfg : Config) : PyPrice → Bool
  | PyPrice.pynone => true
  | PyPrice.pyint n => decide (cfg.price_limit_min ≤ n) && decide (n ≤ cfg.price_limit_max)
  | PyPrice.incomparable => false

def pyPriceOf : Option Nat → PyPrice
  | none => PyPrice.pynone
  | some n => PyPrice.pyint (n : Int)

/-- One listing container element (`<a class="item_row_flex">`) as the fields
the loop body reads off it; `none` in a field models the corresponding
BeautifulSoup lookup failing (attribute absent / sub-element not found). -/
structure Element where
  idAttr : Option String
  href : Option String
  titleText : Option String
  priceText : Option String
  dateText : Option String
deriving DecidableEq, Repr

/-- The `Product` class. `run` never assigns `p.id`, so it keeps its `None`
default. -/
structure Product where
  id : Option Nat := none
  name : String := ""
  price : Option Nat := none
  link : String := ""
  pub_time : Option DateTime := none
deriving DecidableEq, Repr

/-- The uncaught exceptions `Watcher.run` can raise to its caller. -/
inductive RunError where
  | zeroKeywords
  | idTypeError
  | storeError (msg : String)
deriving DecidableEq, Repr

/-- The `for el in bs.find_all(...)` loop of `Watcher.run`. Per element:
the id is `int(re.search("\\d·1,·", el.get('id'))[0])` — an absent attribute or
one without digits raises an uncaught `TypeError`; link, title and price
extraction are each wrapped in `try` and substitute their sentinel on failure;
the publication-time `try` block breaks out of the whole loop when
`get_timestamp` returns `None`, while a failed sub-element lookup is merely
printed and leaves `p.pub_time` at `None`. A surviving element is appended iff
`not is_already_seen(id) and is_within_pricelimit(p.price)`; a store error
propagates out of `run`. -/
def runLoop (cfg : Config) (db : Dynamo) (now : DateTime) :
    List Element → Except RunError (List Product)
  | [] => Except.ok []
  | el :: rest =>
    match el.idAttr.bind (fun s => firstDigitRun s.toList) with
    | none => Except.error RunError.idTypeError
    | some id =>
      let price := el.priceText.bind (fun s => firstDigitRun s.toList)
      match el.dateText.map (fun ds => get_timestamp ds now) with
      | some none => Except.ok []
      | pt =>
        let pub_time : Option DateTime :=
          match pt with
          | some (some t) => some t
          | _ => none
        match is_already_seen db id with
        | Except.error e => Except.error (RunError.storeError e)
        | Except.ok seen =>
          match runLoop cfg db now rest with
          | Except.error e => Except.error e
          | Except.ok tail =>
            if !seen && is_within_pricelimit cfg (pyPriceOf price) then
              Except.ok ({ id := none,
                           name := el.titleText.getD "Name Exception",
                           price := price,
                           link := el.href.getD "Link Exception",
                           pub_time := pub_time } :: tail)
            else Except.ok tail

/-- The outcome of `urllib.request.urlopen` on the generated search URL. -/
inductive FetchResult where
  | httpError
  | response (status : Nat) (elements : List Element)
deriving DecidableEq, Repr

/-- `Watcher.run()`. Raises on an empty keyword list before any fetch; a
transport error yields an empty product list; a non-200 status likewise; on a
200 response the element loop runs. The returned pair carries the (unmodified)
store state alongside the products — the source never writes to DynamoDB
during a run (`insert_prodcut_dynamo` has no caller) — and the second
component counts how many times `urlopen` was invoked. -/
def Watcher.run (cfg : Config) (db : Dynamo) (now : DateTime) (fetch : FetchResult) :
    Except RunError (List Product × Dynamo) × Nat :=
  if cfg.keywords.length = 0 then (Except.error RunError.zeroKeywords, 0)
  else
    match fetch with
    | FetchResult.httpError => (Except.ok ([], db), 1)
    | FetchResult.response status els =>
      if status = 200 then
        match runLoop cfg db now els with
        | Except.error e => (Except.error e, 1)
        | Except.ok l => (Except.ok (l, db), 1)
      else (Except.ok ([], db), 1)

/-! ## Concrete run inputs used by the claim theorems -/

/-- A configuration as `main.py` builds one: a single keyword, a 600-second
window, zero clock-skew offset, prices 0–100. -/
def cfgDemo : Config :=
  { name := "Lautapelit", keywords := ["lautapeli"], timespan_sec := 600,
    server_time_offset_secs := 0, price_limit_min := 0, price_limit_max := 100 }

/-- A store state whose item at the fixed primary key holds an empty seen set. -/
def dbDemo : Dynamo := ⟨[("1234", ⟨some []⟩)]⟩

/-- Reference instant 2024-01-10 08:00:00 (Europe/Helsinki wall clock). -/
def nowDemo : DateTime := ⟨⟨2024, 1, 10⟩, 8, 0, 0⟩

/-- A listing container published yesterday at 00:00 — far outside the
600-second window — with id 5 and price 50. -/
def elStale : Element :=
  { idAttr := some "item_5", href := some "/x", titleText := some "Peli",
    priceText := some "50 e", dateText := some "Eilen 00:00" }

/-- The product `run` extracts from `elStale`. -/
def prodStale : Product :=
  { id := none, name := "Peli", price := some 50, link := "/x",
    pub_time := some ⟨⟨2024, 1, 9⟩, 0, 0, 59⟩ }

/-- A fresh in-window container: published today 08:00, id 7, price 40. -/
def elFresh : Element :=
  { idAttr := some "item_7", href := some "/y", titleText := some "Peli2",
    priceText := some "40", dateText := some "Tänään 08:00" }

/-- The product `run` extracts from `elFresh`. -/
def prodFresh : Product :=
  { id := none, name := "Peli2", price := some 40, link := "/y",
    pub_time := some ⟨⟨2024, 1, 10⟩, 8, 0, 59⟩ }

/-- A container whose anchor carries no `id` attribute at all. -/
def elNoId : Element :=
  { idAttr := none, href := some "/z", titleText := some "T",
    priceText := some "10", dateText := some "Tänään 08:00" }

/-! ## Shared helper lemmas -/

/-- When the `ts` step finds exactly the two groups `[hh, mm]`, `get_timestamp`
reduces to the validity check followed by day resolution. -/
theorem get_timestamp_two_groups (s : String) (now : DateTime) (hh mm : Nat)
    (hg : lastTwoGroups s = [hh, mm]) :
    get_timestamp s now =
      if hh ≤ 23 ∧ mm ≤ 59 then
        dayStep s { now with hour := hh, minute := mm, second := 59 } now
      else none := by
  unfold get_timestamp
  rw [hg]

/-! ## Claim theorems -/

/-- C1: the spec claims the run's accept decision enforces the recency rule —
a record outside `referenceNow − (timespanSeconds + clockSkewOffsetSeconds)`
never appears in the returned accepted set. The code contradicts this: at a
200 response holding one container published yesterday 00:00, with a
600-second window and zero offset, `Watcher.run` returns that record in its
accepted set even though its timestamp lies strictly outside the window (the
loop filters only on seen-state and price, never on the timestamp). -/
theorem c1_stale_record_accepted :
    (Watcher.run cfgDemo dbDemo nowDemo (FetchResult.response 200 [elStale])).1
      = Except.ok ([prodStale], dbDemo)
  ∧ prodStale.pub_time = some ⟨⟨2024, 1, 9⟩, 0, 0, 59⟩
  ∧ toSec ⟨⟨2024, 1, 9⟩, 0, 0, 59⟩
      + (cfgDemo.timespan_sec + cfgDemo.server_time_offset_secs) < toSec nowDemo :=
  ⟨by decide, by decide, by decide⟩

/-- C2: the spec claims accepted identifiers are merged into the seen-set
store before returning, so a second run over identical markup yields zero
accepted listings. The code contradicts this: `insert_prodcut_dynamo` has no
caller, the run returns the store unchanged, and running again over the same
markup with the store state the first run returned yields the same singleton
accepted set, not zero listings. -/
theorem c2_second_run_repeats :
    (match (Watcher.run cfgDemo dbDemo nowDemo (FetchResult.response 200 [elFresh])).1 with
      | Except.ok (_, db2) =>
          (Watcher.run cfgDemo db2 nowDemo (FetchResult.response 200 [elFresh])).1
      | Except.error e => Except.error e)
      = Except.ok ([prodFresh], dbDemo)
  ∧ ([prodFresh] : List Product) ≠ [] :=
  ⟨by decide, by decide⟩

/-- C3 (counterexample): the claim says a missing persisted record is
equivalent to an empty set and never an error; but on a store with no item at
the fixed key, `is_already_seen` raises (`None.get('products')` →
`AttributeError`, re-raised by the `except` clause). -/
theorem c3_counterexample :
    is_already_seen ⟨[]⟩ 5 = Except.error "AttributeError" := by decide

/-- C3 (amended): only a persisted record that exists but lacks the
`products` attribute behaves as an empty set (query returns false, no error);
a wholly missing persisted record makes the query raise, and the error
propagates. -/
theorem c3_missing_item_raises (db : Dynamo) (pid : Nat) :
    (db.getItem (toString DYNAMO_OBJ_PRIMARY_KEY) = none →
      is_already_seen db pid = Except.error "AttributeError")
  ∧ (db.getItem (toString DYNAMO_OBJ_PRIMARY_KEY) = some ⟨none⟩ →
      is_already_seen db pid = Except.ok false) := by
  constructor
  · intro h; unfold is_already_seen; rw [h]
  · intro h; unfold is_already_seen; rw [h]

/-- C3 (witness): the amended statement at concrete stores. -/
theorem c3_missing_item_raises_witness :
    is_already_seen ⟨[]⟩ 99 = Except.error "AttributeError"
  ∧ is_already_seen ⟨[("1234", ⟨none⟩)]⟩ 5 = Except.ok false :=
  ⟨(c3_missing_item_raises ⟨[]⟩ 99).1 (by decide),
   (c3_missing_item_raises ⟨[("1234", ⟨none⟩)]⟩ 5).2 (by decide)⟩

/-- C4: the spec claims that after `merge(·id·)`, `contains(id)` returns
true. The code contradicts this: `insert_prodcut_dynamo` reads the item at
key `str(1234)` but writes the union under the key `"lautisvahti"` (the table
name), so a subsequent `is_already_seen`, which reads key `str(1234)`, still
reports the merged identifier as unseen. -/
theorem c4_merge_invisible_to_contains :
    insert_prodcut_dynamo dbDemo 7
      = Except.ok ⟨[("lautisvahti", ⟨some [7]⟩), ("1234", ⟨some []⟩)]⟩
  ∧ (insert_prodcut_dynamo dbDemo 7).bind (fun db2 => is_already_seen db2 7)
      = Except.ok false :=
  ⟨by decide, by decide⟩

/-- C5 (counterexample): the claim says an input with fewer than two numeric
groups yields `None` regardless of any day token; but `"tänään"` has zero
numeric groups and `get_timestamp` returns the reference time itself. -/
theorem c5_counterexample :
    numGroups "tänään" = 0 ∧ get_timestamp "tänään" nowDemo = some nowDemo :=
  ⟨by decide, by decide⟩

/-- C5 (amended): with fewer than two numeric groups, the `len(ts) == 2`
guard is skipped and `pub_time` stays at the reference time, so the result is
`None` only when no recognized day token is present: with `tänään` the
reference time itself is returned, with `eilen` the reference time minus one
calendar day. -/
theorem c5_amended (s : String) (now : DateTime) (h : numGroups s < 2) :
    get_timestamp s now =
      if hasToday s then some now
      else if hasYesterday s then some (subDay now)
      else none := by
  have hlt : lastTwoGroups s = findGroups (process s) := by
    unfold lastTwoGroups lastTwo
    have h0 : (findGroups (process s)).length - 2 = 0 := by
      unfold numGroups at h; omega
    rw [h0, List.drop_zero]
  unfold get_timestamp
  rw [hlt]
  cases hg : findGroups (process s) with
  | nil => rfl
  | cons a t =>
    cases t with
    | nil => rfl
    | cons b t2 =>
      exfalso
      unfold numGroups at h
      rw [hg] at h
      simp at h
      omega

/-- C5 (witness): the amended statement at a concrete input (also exercising
the leap-day calendar arithmetic of the one-day subtraction). -/
theorem c5_amended_witness :
    get_timestamp "eilen" ⟨⟨2024, 3, 1⟩, 10, 0, 0⟩ = some ⟨⟨2024, 2, 29⟩, 10, 0, 0⟩ := by
  rw [c5_amended "eilen" ⟨⟨2024, 3, 1⟩, 10, 0, 0⟩ (by decide)]
  decide

/-- C6: when the last two numeric groups of the input form a valid time of
day and a day token is present, `get_timestamp` returns: on `tänään`, the
reference date with the stated hour and minute and seconds pinned to 59; on
`eilen` (and no `tänään`), the same time of day exactly one calendar day
earlier; and `None` when neither token occurs. -/
theorem c6_two_groups_day_token (s : String) (now : DateTime) (hh mm : Nat)
    (hg : lastTwoGroups s = [hh, mm]) (h23 : hh ≤ 23) (h59 : mm ≤ 59) :
    (hasToday s = true → get_timestamp s now = some ⟨now.date, hh, mm, 59⟩)
  ∧ (hasToday s = false → hasYesterday s = true →
      get_timestamp s now = some ⟨predDate now.date, hh, mm, 59⟩)
  ∧ (hasToday s = false → hasYesterday s = false → get_timestamp s now = none) := by
  refine ⟨fun ht => ?_, fun ht hy => ?_, fun ht hy => ?_⟩
  · rw [get_timestamp_two_groups s now hh mm hg, if_pos ⟨h23, h59⟩]
    unfold dayStep
    rw [ht]
    rfl
  · rw [get_timestamp_two_groups s now hh mm hg, if_pos ⟨h23, h59⟩]
    unfold dayStep
    rw [ht, hy]
    rfl
  · rw [get_timestamp_two_groups s now hh mm hg, if_pos ⟨h23, h59⟩]
    unfold dayStep
    rw [ht, hy]
    rfl

/-- C6 (witness): the spec's own examples — `"Tänään 12:34"` and
`"Eilen 23:59"` against reference 2024-01-10 08:00, and an unrecognized day
token yielding `None`. -/
theorem c6_two_groups_day_token_witness :
    get_timestamp "Tänään 12:34" nowDemo = some ⟨⟨2024, 1, 10⟩, 12, 34, 59⟩
  ∧ get_timestamp "Eilen 23:59" nowDemo = some ⟨⟨2024, 1, 9⟩, 23, 59, 59⟩
  ∧ get_timestamp "sometime 12:34" nowDemo = none := by
  refine ⟨?_, ?_, ?_⟩
  · exact (c6_two_groups_day_token "Tänään 12:34" nowDemo 12 34
      (by decide) (by decide) (by decide)).1 (by decide)
  · rw [(c6_two_groups_day_token "Eilen 23:59" nowDemo 23 59
      (by decide) (by decide) (by decide)).2.1 (by decide) (by decide)]
    decide
  · exact (c6_two_groups_day_token "sometime 12:34" nowDemo 12 34
      (by decide) (by decide) (by decide)).2.2 (by decide) (by decide)

/-- C9: when the last two numeric groups do not form a valid time of day
(hour above 23 or minute above 59), the `datetime.replace` call raises
`ValueError`, which `get_timestamp` catches and turns into `None` instead of
propagating. -/
theorem c9_invalid_time_none (s : String) (now : DateTime) (hh mm : Nat)
    (hg : lastTwoGroups s = [hh, mm]) (hbad : 23 < hh ∨ 59 < mm) :
    get_timestamp s now = none := by
  rw [get_timestamp_two_groups s now hh mm hg, if_neg (by omega)]

/-- C9 (witness): `"Eilen 26:59"` resolves to `None`. -/
theorem c9_invalid_time_none_witness :
    get_timestamp "Eilen 26:59" nowDemo = none :=
  c9_invalid_time_none "Eilen 26:59" nowDemo 26 59 (by decide) (Or.inl (by decide))

/-- C7 (counterexample): the claim says a container carrying no identifier is
still extracted and the run does not fail on it; but on markup whose single
container has no `id` attribute, `int(re.search("\\d·1,·", None)[0])` raises an
uncaught `TypeError` and the whole run aborts with that error. -/
theorem c7_counterexample :
    (Watcher.run cfgDemo dbDemo nowDemo (FetchResult.response 200 [elNoId])).1
      = Except.error RunError.idTypeError := by decide

/-- C7 (amended): a container whose `id` attribute is absent (or holds no
digits) makes the extraction loop raise an uncaught `TypeError`: the record
is not extracted and the run aborts, rather than being treated as always-new
(the caller `AWSHandler.run` catches the exception and reports failure). -/
theorem c7_missing_id_aborts (cfg : Config) (db : Dynamo) (now : DateTime)
    (el : Element) (rest : List Element)
    (h : el.idAttr.bind (fun s => firstDigitRun s.toList) = none) :
    runLoop cfg db now (el :: rest) = Except.error RunError.idTypeError := by
  unfold runLoop
  rw [h]

/-- C7 (witness): the amended statement at the concrete id-less container. -/
theorem c7_missing_id_aborts_witness :
    runLoop cfgDemo dbDemo nowDemo [elNoId] = Except.error RunError.idTypeError :=
  c7_missing_id_aborts cfgDemo dbDemo nowDemo elNoId [] (by decide)

/-- C8: with an empty keyword list, `Watcher.run` raises
`"0 keywords! Can't run Watcher!"` before the fetch: the result is the
configuration error and `urlopen` is invoked zero times, whatever the
transport would have answered. -/
theorem c8_empty_keywords_no_fetch (cfg : Config) (db : Dynamo) (now : DateTime)
    (fetch : FetchResult) (h : cfg.keywords = []) :
    Watcher.run cfg db now fetch = (Except.error RunError.zeroKeywords, 0) := by
  unfold Watcher.run
  rw [h]
  rfl

/-- A configuration whose keyword list is empty. -/
def cfgNoKeywords : Config := { cfgDemo with keywords := [] }

/-- C8 (witness): the empty-keyword configuration aborts with zero fetches. -/
theorem c8_empty_keywords_no_fetch_witness :
    Watcher.run cfgNoKeywords dbDemo nowDemo FetchResult.httpError
      = (Except.error RunError.zeroKeywords, 0) :=
  c8_empty_keywords_no_fetch cfgNoKeywords dbDemo nowDemo FetchResult.httpError rfl

/-- C10: `is_within_pricelimit` is total over its price argument: `None`
always yields `True`; a value whose comparison with the limits raises is
caught and yields `False`; and an integer is accepted exactly when it lies
within the inclusive configured limits — no input makes it raise. -/
theorem c10_pricelimit_total (cfg : Config) (p : PyPrice) :
    (p = PyPrice.pynone → is_within_pricelimit cfg p = true)
  ∧ (p = PyPrice.incomparable → is_within_pricelimit cfg p = false)
  ∧ ∀ n : Int, p = PyPrice.pyint n →
      (is_within_pricelimit cfg p = true
        ↔ cfg.price_limit_min ≤ n ∧ n ≤ cfg.price_limit_max) := by
  refine ⟨fun h => ?_, fun h => ?_, fun n h => ?_⟩
  · rw [h]; rfl
  · rw [h]; rfl
  · rw [h]; simp [is_within_pricelimit]

/-- C10 (witness): the three behaviors at the demo configuration. -/
theorem c10_pricelimit_total_witness :
    is_within_pricelimit cfgDemo PyPrice.pynone = true
  ∧ is_within_pricelimit cfgDemo PyPrice.incomparable = false
  ∧ (is_within_pricelimit cfgDemo (PyPrice.pyint 50) = true
      ↔ cfgDemo.price_limit_min ≤ 50 ∧ (50 : Int) ≤ cfgDemo.price_limit_max) :=
  ⟨(c10_pricelimit_total cfgDemo PyPrice.pynone).1 rfl,
   (c10_pricelimit_total cfgDemo PyPrice.incomparable).2.1 rfl,
   (c10_pricelimit_total cfgDemo (PyPrice.pyint 50)).2.2 50 rfl⟩

